import Mathlib

/-
  Shallow embedding of src/Plugin/Lux/LuxExportModules/Camera.py
  (MayaToLux camera export module).

  Modelling conventions:
  - Python floats are modelled as real numbers.
  - Maya scene-graph attribute reads (`self.camera.*`) are modelled as fields
    of a `CameraData` record; `cmds.getAttr('lux_settings.*')` reads are fields
    of a `LuxSettings` record.  Both are snapshots of the values those queries
    return during one export call.
  - The three world-space vector queries in `InsertLookat` can raise inside
    Maya; each is modelled as an `Option MPoint` (`none` = the query raised).
  - `self.addToOutput(line)` appends a line to a buffer owned by the parent
    exporter.  Each emitted line is modelled as a structured `Line` value; a
    method that only appends is modelled as a function returning the list of
    lines it appends, and `getOutput` as returning the final buffer contents
    paired with `Option String` (`some msg` = the call raised with `msg`
    after appending those lines, mirroring that Python performs no rollback).
  - Python float division raises ZeroDivisionError on a zero denominator;
    the one division whose denominator can reach zero from scene data
    (`filmdistance` in `InsertRealistic`, line 199) is modelled as fallible
    via `Except`.  (Maya clamps `fStop` to a strictly positive range, so the
    `aperture_diameter` denominator is not modelled as fallible.)
-/

namespace MayaToLux

/-- A 3d point/vector as returned by the Maya API (MPoint/MVector). -/
structure MPoint where
  x : ℝ
  y : ℝ
  z : ℝ

/-- Snapshot of the `lux_settings` node attributes read by Camera.py. -/
structure LuxSettings where
  camera_persptype : String
  camera_infinite_focus : Int
  camera_exposuretime : ℝ
  camera_autofocus : Int

/-- Snapshot of the MFnCamera attribute queries made by Camera.py.
The three world-space queries of `InsertLookat` are `Option`-valued:
`none` models the Maya call raising an exception. -/
structure CameraData where
  isOrtho : Bool
  focalLength : ℝ
  fStop : ℝ
  horizontalFieldOfView : ℝ
  verticalFieldOfView : ℝ
  horizontalFilmAperture : ℝ
  verticalFilmAperture : ℝ
  filmTranslateH : ℝ
  filmTranslateV : ℝ
  orthoWidth : ℝ
  centerOfInterest : ℝ
  eyePoint : Option MPoint
  upDirection : Option MPoint
  centerOfInterestPoint : Option MPoint

/-- One line appended to the output buffer, in structured form.  Each
constructor corresponds to one `addToOutput` format string in Camera.py. -/
inductive Line where
  | comment (s : String)
  | blank
  | cameraType (t : String)
  | screenwindow (a b c d : ℝ)
  | shutteropen (t : ℝ)
  | shutterclose (t : ℝ)
  | autofocusEnable (v : String)
  | fieldofview (v : ℝ)
  | specfile (path : String)
  | filmdistance (v : ℝ)
  | apertureDiameter (v : ℝ)
  | filmdiag (v : ℝ)
  | lookatOrig (x y z : ℝ)
  | lookatTarget (x y z : ℝ)
  | up (x y z : ℝ)

/-- The instance attribute `self.DOF_CONST`, set to `1000` in `__init__`
(line 49; the class-level `0` at line 32 is immediately overwritten). -/
def DOF_CONST : ℝ := 1000

/-- Python `math.degrees`: radians to degrees. -/
noncomputable def degrees (x : ℝ) : ℝ := x * (180 / Real.pi)

/-- Modelled from the spec: `ExportModule.intToBoolString` is not under src/;
per the spec it translates an integer configuration flag into the boolean
emitted in the scene file (nonzero maps to true). -/
def intToBoolString (i : Int) : String :=
  if i = 0 then "false" else "true"

/-- Modelled from the spec: `ExportModule.checkUpAxis` is not under src/.
Per spec section 4.2 it conditionally remaps a transform from the host's
native up-axis convention to the renderer's: it is the identity when the
host up-axis already matches the renderer's convention, and otherwise a
fixed basis remap swapping the Y and Z axes with one sign flip.  It is
represented here by its action on the translation component of the matrix,
the only part `pointCheckUpAxis` uses. -/
def checkUpAxis (hostUpAxisMatchesRenderer : Bool) (p : MPoint) : MPoint :=
  if hostUpAxisMatchesRenderer then p else ⟨p.x, -p.z, p.y⟩

/-- `Camera.pointCheckUpAxis` (lines 158-169): wraps the point into a
translation-only transformation matrix, passes the matrix through
`checkUpAxis`, and extracts the resulting translation.  The
set-translation/as-matrix/get-translation round trip is the identity on the
point, so the function reduces to `checkUpAxis` acting on the point. -/
def pointCheckUpAxis (hostUpAxisMatchesRenderer : Bool) (point : MPoint) : MPoint :=
  checkUpAxis hostUpAxisMatchesRenderer ⟨point.x, point.y, point.z⟩

/-- `Camera.InsertCommon` (lines 74-121).  The `lens_radius` computation at
lines 83-87 is dead code (its output line 89 is commented out) and is not
modelled.  `scale` is the instance attribute `self.scale` (1.0 from
`__init__` unless `InsertOrtho` reassigned it). -/
noncomputable def InsertCommon (S : LuxSettings) (cam : CameraData) (scale : ℝ)
    (outWidth outHeight : ℕ) : List Line :=
  let shiftX := cam.filmTranslateH
  let shiftY := cam.filmTranslateV
  let ratio : ℝ := (outWidth : ℝ) / (outHeight : ℝ)
  let invRatio : ℝ := 1 / ratio
  let screenwindow : ℝ × ℝ × ℝ × ℝ :=
    if ratio > 1 then
      ( ((2 * shiftX) - 1) * scale,
        ((2 * shiftX) + 1) * scale,
        ((2 * shiftY) - invRatio) * scale,
        ((2 * shiftY) + invRatio) * scale )
    else
      ( ((2 * shiftX) - ratio) * scale,
        ((2 * shiftX) + ratio) * scale,
        ((2 * shiftY) - 1) * scale,
        ((2 * shiftY) + 1) * scale )
  [ Line.screenwindow screenwindow.1 screenwindow.2.1 screenwindow.2.2.1 screenwindow.2.2.2,
    Line.shutteropen 0,
    Line.shutterclose S.camera_exposuretime ]

/-- `Camera.InsertLookat` (lines 123-156).  Each of the three world-space
queries is guarded by try/except that logs an error naming the query and
re-raises; a `.error` value carries the logged message of the failing
query.  On success the three converted vectors and the blank separator are
appended. -/
def InsertLookat (hostUpAxisMatchesRenderer : Bool) (cam : CameraData) :
    Except String (List Line) :=
  match cam.eyePoint with
  | none => .error "Failed to get camera.eyePoint\n"
  | some eye0 =>
    match cam.upDirection with
    | none => .error "Failed to get camera.upDirection\n"
    | some up0 =>
      match cam.centerOfInterestPoint with
      | none => .error "Failed to get camera.centerOfInterestPoint\n"
      | some at0 =>
        let eye := pointCheckUpAxis hostUpAxisMatchesRenderer eye0
        let at1 := pointCheckUpAxis hostUpAxisMatchesRenderer at0
        let up1 := pointCheckUpAxis hostUpAxisMatchesRenderer up0
        .ok [ Line.lookatOrig eye.x eye.y eye.z,
              Line.lookatTarget at1.x at1.y at1.z,
              Line.up up1.x up1.y up1.z,
              Line.blank ]

/-- `Camera.InsertEnvironment` (lines 171-178). -/
noncomputable def InsertEnvironment (S : LuxSettings) (cam : CameraData)
    (outWidth outHeight : ℕ) : List Line :=
  Line.cameraType "environment" :: InsertCommon S cam 1 outWidth outHeight

/-- `Camera.InsertRealistic` (lines 180-208).  `cFOV` (lines 189-192) is
computed but never used; it is kept for fidelity.  The `filmdistance`
division (line 199) raises ZeroDivisionError in Python when its denominator
is zero, modelled as the `.error` branch; nothing is appended in that case
because all `addToOutput` calls (lines 201-205) come after line 199. -/
noncomputable def InsertRealistic (S : LuxSettings) (cam : CameraData)
    (outWidth outHeight : ℕ) : Except String (List Line) :=
  let _cFOV : ℝ :=
    if outHeight < outWidth then degrees cam.horizontalFieldOfView
    else degrees cam.verticalFieldOfView
  let filmdiag := Real.sqrt (cam.horizontalFilmAperture * cam.verticalFilmAperture)
  let fstop := cam.fStop
  let dofdist := cam.centerOfInterest
  let focal := cam.focalLength / DOF_CONST
  let aperture_diameter := focal / fstop
  if dofdist - focal = 0 then
    .error "ZeroDivisionError: float division by zero"
  else
    let filmdistance := dofdist * focal / (dofdist - focal)
    .ok ([ Line.cameraType "realistic",
           Line.specfile "E:/dev/luxrender/lux/cameras/realistic/wide.22mm.dat",
           Line.filmdistance filmdistance,
           Line.apertureDiameter aperture_diameter,
           Line.filmdiag filmdiag ] ++ InsertCommon S cam 1 outWidth outHeight)

/-- `Camera.InsertPerspective` (lines 210-227). -/
noncomputable def InsertPerspective (S : LuxSettings) (cam : CameraData)
    (outWidth outHeight : ℕ) : List Line :=
  let cFOV : ℝ :=
    if outHeight < outWidth then degrees cam.horizontalFieldOfView
    else degrees cam.verticalFieldOfView
  Line.cameraType "perspective" ::
  Line.autofocusEnable (intToBoolString S.camera_autofocus) ::
  Line.fieldofview cFOV ::
  InsertCommon S cam 1 outWidth outHeight

/-- `Camera.InsertOrtho` (lines 229-238): reassigns `self.scale` to half the
ortho width before inserting the common block. -/
noncomputable def InsertOrtho (S : LuxSettings) (cam : CameraData)
    (outWidth outHeight : ℕ) : List Line :=
  let scale := cam.orthoWidth / 2
  Line.cameraType "orthographic" :: InsertCommon S cam scale outWidth outHeight

/-- The type-specific part of `Camera.getOutput` (lines 58-68): the dispatch
on `isOrtho` and `lux_settings.camera_persptype`.  Returns the lines
appended by the type-specific block, paired with `some msg` when the block
raised after appending them (only the realistic branch can raise;
the `#Camera` comment of line 62 was already appended before the dispatch). -/
noncomputable def typeBlock (S : LuxSettings) (cam : CameraData)
    (outWidth outHeight : ℕ) : List Line × Option String :=
  if cam.isOrtho then
    (InsertOrtho S cam outWidth outHeight, none)
  else if S.camera_persptype = "Perspective" then
    (Line.comment "#Camera" :: InsertPerspective S cam outWidth outHeight, none)
  else if S.camera_persptype = "Environment" then
    (Line.comment "#Camera" :: InsertEnvironment S cam outWidth outHeight, none)
  else
    match InsertRealistic S cam outWidth outHeight with
    | .ok ls => (Line.comment "#Camera" :: ls, none)
    | .error e => ([Line.comment "#Camera"], some e)

/-- `Camera.getOutput` (lines 52-72): type-specific block, then
`InsertLookat`.  Result: the final buffer contents, and `some msg` when the
call raised with message `msg` (lines already appended stay in the buffer). -/
noncomputable def getOutput (S : LuxSettings) (cam : CameraData)
    (hostUpAxisMatchesRenderer : Bool) (outWidth outHeight : ℕ) :
    List Line × Option String :=
  match typeBlock S cam outWidth outHeight with
  | (ls, some e) => (ls, some e)
  | (ls, none) =>
    match InsertLookat hostUpAxisMatchesRenderer cam with
    | .error e => (ls, some e)
    | .ok lk => (ls ++ lk, none)

/-- Recognizer for the look-at block lines. -/
def Line.isLookatLine : Line → Bool
  | .lookatOrig _ _ _ => true
  | .lookatTarget _ _ _ => true
  | .up _ _ _ => true
  | _ => false

/-- Recognizer for field-of-view and lens/focus parameter lines. -/
def Line.isLensLine : Line → Bool
  | .fieldofview _ => true
  | .autofocusEnable _ => true
  | .specfile _ => true
  | .filmdistance _ => true
  | .apertureDiameter _ => true
  | .filmdiag _ => true
  | _ => false

/-- The scene-file key a line assigns, if any (comment markers and the blank
separator carry no key). -/
def Line.key : Line → Option String
  | .comment _ => none
  | .blank => none
  | .cameraType _ => some "scene.camera.type"
  | .screenwindow _ _ _ _ => some "scene.camera.screenwindow"
  | .shutteropen _ => some "scene.camera.shutteropen"
  | .shutterclose _ => some "scene.camera.shutterclose"
  | .autofocusEnable _ => some "scene.camera.autofocus.enable"
  | .fieldofview _ => some "scene.camera.fieldofview"
  | .specfile _ => some "string specfile"
  | .filmdistance _ => some "float filmdistance"
  | .apertureDiameter _ => some "float aperture_diameter"
  | .filmdiag _ => some "float filmdiag"
  | .lookatOrig _ _ _ => some "scene.camera.lookat.orig"
  | .lookatTarget _ _ _ => some "scene.camera.lookat.target"
  | .up _ _ _ => some "scene.camera.up"

/-- The key set named by the specification. -/
def claimedKeys : List String :=
  [ "scene.camera.type", "scene.camera.screenwindow", "scene.camera.shutteropen",
    "scene.camera.shutterclose", "scene.camera.autofocus.enable",
    "scene.camera.fieldofview", "scene.camera.lookat.orig",
    "scene.camera.lookat.target", "scene.camera.up" ]

/-- The additional keys the realistic branch emits (legacy quoted syntax). -/
def realisticKeys : List String :=
  [ "string specfile", "float filmdistance", "float aperture_diameter",
    "float filmdiag" ]

/-
  Concrete fixtures used by witnesses and counterexamples.
-/

/-- Settings snapshot with `camera_persptype = "Perspective"`. -/
def perspSettings : LuxSettings :=
  { camera_persptype := "Perspective", camera_infinite_focus := 1,
    camera_exposuretime := 1, camera_autofocus := 1 }

/-- Settings snapshot whose `camera_persptype` is neither "Perspective" nor
"Environment", so `getOutput` dispatches to the realistic branch. -/
def realSettings : LuxSettings :=
  { camera_persptype := "Realistic", camera_infinite_focus := 1,
    camera_exposuretime := 1, camera_autofocus := 0 }

/-- A camera snapshot on which every query succeeds; `focalLength = 1000`
makes `focal = 1`, and `centerOfInterest = 2` keeps the `filmdistance`
denominator nonzero. -/
def baseCam : CameraData :=
  { isOrtho := false, focalLength := 1000, fStop := 2,
    horizontalFieldOfView := 1, verticalFieldOfView := 2,
    horizontalFilmAperture := 1, verticalFilmAperture := 1,
    filmTranslateH := 0, filmTranslateV := 0, orthoWidth := 10,
    centerOfInterest := 2,
    eyePoint := some ⟨0, 0, 0⟩, upDirection := some ⟨0, 1, 0⟩,
    centerOfInterestPoint := some ⟨0, 0, 5⟩ }

/-- Camera on which the `eyePoint` world-space query raises. -/
def failCam : CameraData := { baseCam with eyePoint := none }

/-- Camera whose center-of-interest distance equals `focalLength / 1000`,
zeroing the `filmdistance` denominator of `InsertRealistic`. -/
def divCam : CameraData := { baseCam with centerOfInterest := 1 }

/-- Helper: `InsertCommon` always emits exactly a screen-window line, a
shutter-open line with value 0, and a shutter-close line carrying the
exposure time, in that order. -/
theorem insertCommon_shape (S : LuxSettings) (cam : CameraData) (scale : ℝ) (w h : ℕ) :
    ∃ a b c d : ℝ, InsertCommon S cam scale w h =
      [ Line.screenwindow a b c d, Line.shutteropen 0,
        Line.shutterclose S.camera_exposuretime ] :=
  ⟨_, _, _, _, rfl⟩

/-- Helper: the common block contains no look-at line and no lens line, and
its keys are among screenwindow/shutteropen/shutterclose. -/
theorem insertCommon_lines (S : LuxSettings) (cam : CameraData) (scale : ℝ) (w h : ℕ) :
    ∀ l ∈ InsertCommon S cam scale w h,
      l.isLookatLine = false ∧ l.isLensLine = false ∧
      ∀ k, l.key = some k →
        k ∈ [ "scene.camera.screenwindow", "scene.camera.shutteropen",
              "scene.camera.shutterclose" ] := by
  obtain ⟨a, b, c, d, hs⟩ := insertCommon_shape S cam scale w h
  rw [hs]
  intro l hl
  simp only [List.mem_cons, List.not_mem_nil, or_false] at hl
  rcases hl with rfl | rfl | rfl <;>
    simp [Line.isLookatLine, Line.isLensLine, Line.key]

/-- Helper: a successful `InsertLookat` emits exactly origin, target and up
lines followed by the blank separator. -/
theorem insertLookat_ok_shape (m : Bool) (cam : CameraData) (lk : List Line)
    (hok : InsertLookat m cam = .ok lk) :
    ∃ e a u : MPoint, lk =
      [ Line.lookatOrig e.x e.y e.z, Line.lookatTarget a.x a.y a.z,
        Line.up u.x u.y u.z, Line.blank ] := by
  unfold InsertLookat at hok
  cases he : cam.eyePoint with
  | none => rw [he] at hok; cases hok
  | some eye0 =>
    cases hu : cam.upDirection with
    | none => rw [he, hu] at hok; cases hok
    | some up0 =>
      cases hc : cam.centerOfInterestPoint with
      | none => rw [he, hu, hc] at hok; cases hok
      | some at0 =>
        rw [he, hu, hc] at hok
        injection hok with hok
        exact ⟨_, _, _, hok.symm⟩

/-- Helper: a successful `InsertRealistic` emits exactly the realistic block
followed by the common block. -/
theorem insertRealistic_ok_shape (S : LuxSettings) (cam : CameraData) (w h : ℕ)
    (ls : List Line) (hok : InsertRealistic S cam w h = .ok ls) :
    ls = [ Line.cameraType "realistic",
           Line.specfile "E:/dev/luxrender/lux/cameras/realistic/wide.22mm.dat",
           Line.filmdistance (cam.centerOfInterest * (cam.focalLength / DOF_CONST) /
             (cam.centerOfInterest - cam.focalLength / DOF_CONST)),
           Line.apertureDiameter ((cam.focalLength / DOF_CONST) / cam.fStop),
           Line.filmdiag (Real.sqrt (cam.horizontalFilmAperture * cam.verticalFilmAperture)) ]
          ++ InsertCommon S cam 1 w h := by
  unfold InsertRealistic at hok
  by_cases hz : cam.centerOfInterest - cam.focalLength / DOF_CONST = 0
  · rw [if_pos hz] at hok; cases hok
  · rw [if_neg hz] at hok
    injection hok with hok
    exact hok.symm

/-- Helper: no branch of the type-specific block emits a look-at line. -/
theorem typeBlock_no_lookat (S : LuxSettings) (cam : CameraData) (w h : ℕ) :
    ∀ l ∈ (typeBlock S cam w h).1, l.isLookatLine = false := by
  intro l hl
  unfold typeBlock at hl
  by_cases ho : cam.isOrtho
  · rw [if_pos (by simp [ho])] at hl
    simp only [InsertOrtho, List.mem_cons] at hl
    rcases hl with rfl | hl
    · rfl
    · exact (insertCommon_lines S cam _ w h l hl).1
  · rw [if_neg (by simp [ho])] at hl
    by_cases hp : S.camera_persptype = "Perspective"
    · rw [if_pos hp] at hl
      simp only [InsertPerspective, List.mem_cons] at hl
      rcases hl with rfl | rfl | rfl | rfl | hl
      · rfl
      · rfl
      · rfl
      · rfl
      · exact (insertCommon_lines S cam _ w h l hl).1
    · rw [if_neg hp] at hl
      by_cases he : S.camera_persptype = "Environment"
      · rw [if_pos he] at hl
        simp only [InsertEnvironment, List.mem_cons] at hl
        rcases hl with rfl | rfl | hl
        · rfl
        · rfl
        · exact (insertCommon_lines S cam _ w h l hl).1
      · rw [if_neg he] at hl
        cases hr : InsertRealistic S cam w h with
        | error e =>
          rw [hr] at hl
          simp only [List.mem_cons, List.not_mem_nil, or_false] at hl
          subst hl; rfl
        | ok ls =>
          rw [hr] at hl
          rw [insertRealistic_ok_shape S cam w h ls hr] at hl
          simp only [List.mem_cons, List.cons_append, List.nil_append,
            List.mem_append] at hl
          rcases hl with rfl | rfl | rfl | rfl | rfl | rfl | hl
          · rfl
          · rfl
          · rfl
          · rfl
          · rfl
          · rfl
          · exact (insertCommon_lines S cam _ w h l hl).1

/-- Helper: keys of the common block lie in the claimed key set and are
neither the field-of-view key nor the autofocus key. -/
theorem common_key_sub (S : LuxSettings) (cam : CameraData) (scale : ℝ) (w h : ℕ)
    (l : Line) (hl : l ∈ InsertCommon S cam scale w h) (k : String)
    (hk : l.key = some k) :
    k ∈ claimedKeys ∧ k ≠ "scene.camera.fieldofview" ∧
      k ≠ "scene.camera.autofocus.enable" := by
  have h3 := (insertCommon_lines S cam scale w h l hl).2.2 k hk
  simp only [List.mem_cons, List.not_mem_nil, or_false] at h3
  rcases h3 with rfl | rfl | rfl <;> refine ⟨by decide, by decide, by decide⟩

/-- Helper: classification of the keys emitted by the type-specific block:
they lie in the claimed set extended with the realistic keys; in the claimed
set alone for orthographic/perspective/environment dispatch; and exclude the
perspective-only keys for orthographic or non-perspective dispatch. -/
theorem typeBlock_key_cases (S : LuxSettings) (cam : CameraData) (w h : ℕ)
    (l : Line) (hl : l ∈ (typeBlock S cam w h).1) (k : String)
    (hk : l.key = some k) :
    k ∈ claimedKeys ++ realisticKeys ∧
    ((cam.isOrtho = true ∨ S.camera_persptype = "Perspective" ∨
        S.camera_persptype = "Environment") → k ∈ claimedKeys) ∧
    ((cam.isOrtho = true ∨ S.camera_persptype ≠ "Perspective") →
        k ≠ "scene.camera.fieldofview" ∧ k ≠ "scene.camera.autofocus.enable") := by
  unfold typeBlock at hl
  by_cases ho : cam.isOrtho
  · rw [if_pos (by simp [ho])] at hl
    simp only [InsertOrtho, List.mem_cons] at hl
    rcases hl with rfl | hl
    · simp only [Line.key, Option.some.injEq] at hk
      subst hk
      exact ⟨by decide, fun _ => by decide, fun _ => by decide⟩
    · obtain ⟨h1, h2, h3⟩ := common_key_sub S cam _ w h l hl k hk
      exact ⟨List.mem_append_left _ h1, fun _ => h1, fun _ => ⟨h2, h3⟩⟩
  · rw [if_neg (by simp [ho])] at hl
    have honf : cam.isOrtho = true → False := fun hc => ho hc
    by_cases hp : S.camera_persptype = "Perspective"
    · rw [if_pos hp] at hl
      simp only [InsertPerspective, List.mem_cons] at hl
      have hnot3 : (cam.isOrtho = true ∨ S.camera_persptype ≠ "Perspective") → False := by
        rintro (hc | hc)
        · exact honf hc
        · exact hc hp
      rcases hl with rfl | rfl | rfl | rfl | hl
      · cases hk
      · simp only [Line.key, Option.some.injEq] at hk
        subst hk
        exact ⟨by decide, fun _ => by decide, fun hc => absurd hc hnot3⟩
      · simp only [Line.key, Option.some.injEq] at hk
        subst hk
        exact ⟨by decide, fun _ => by decide, fun hc => absurd hc hnot3⟩
      · simp only [Line.key, Option.some.injEq] at hk
        subst hk
        exact ⟨by decide, fun _ => by decide, fun hc => absurd hc hnot3⟩
      · obtain ⟨h1, h2, h3⟩ := common_key_sub S cam _ w h l hl k hk
        exact ⟨List.mem_append_left _ h1, fun _ => h1, fun _ => ⟨h2, h3⟩⟩
    · rw [if_neg hp] at hl
      by_cases he : S.camera_persptype = "Environment"
      · rw [if_pos he] at hl
        simp only [InsertEnvironment, List.mem_cons] at hl
        rcases hl with rfl | rfl | hl
        · cases hk
        · simp only [Line.key, Option.some.injEq] at hk
          subst hk
          exact ⟨by decide, fun _ => by decide, fun _ => by decide⟩
        · obtain ⟨h1, h2, h3⟩ := common_key_sub S cam _ w h l hl k hk
          exact ⟨List.mem_append_left _ h1, fun _ => h1, fun _ => ⟨h2, h3⟩⟩
      · rw [if_neg he] at hl
        have hno2 : (cam.isOrtho = true ∨ S.camera_persptype = "Perspective" ∨
            S.camera_persptype = "Environment") → False := by
          rintro (hc | hc | hc)
          · exact honf hc
          · exact hp hc
          · exact he hc
        cases hr : InsertRealistic S cam w h with
        | error e =>
          rw [hr] at hl
          simp only [List.mem_cons, List.not_mem_nil, or_false] at hl
          subst hl; cases hk
        | ok ls =>
          rw [hr] at hl
          rw [insertRealistic_ok_shape S cam w h ls hr] at hl
          simp only [List.mem_cons, List.cons_append, List.nil_append,
            List.mem_append] at hl
          rcases hl with rfl | rfl | rfl | rfl | rfl | rfl | hl
          · cases hk
          · simp only [Line.key, Option.some.injEq] at hk
            subst hk
            exact ⟨by decide, fun hc => absurd hc hno2, fun _ => by decide⟩
          · simp only [Line.key, Option.some.injEq] at hk
            subst hk
            exact ⟨by decide, fun hc => absurd hc hno2, fun _ => by decide⟩
          · simp only [Line.key, Option.some.injEq] at hk
            subst hk
            exact ⟨by decide, fun hc => absurd hc hno2, fun _ => by decide⟩
          · simp only [Line.key, Option.some.injEq] at hk
            subst hk
            exact ⟨by decide, fun hc => absurd hc hno2, fun _ => by decide⟩
          · simp only [Line.key, Option.some.injEq] at hk
            subst hk
            exact ⟨by decide, fun hc => absurd hc hno2, fun _ => by decide⟩
          · obtain ⟨h1, h2, h3⟩ := common_key_sub S cam _ w h l hl k hk
            exact ⟨List.mem_append_left _ h1, fun _ => h1, fun _ => ⟨h2, h3⟩⟩

/-- Helper: when the type-specific block raises, `getOutput` stops with that
error and the buffer holds exactly the lines the block appended. -/
theorem getOutput_typeBlock_err (S : LuxSettings) (cam : CameraData) (m : Bool)
    (w h : ℕ) (e : String) (htb : (typeBlock S cam w h).2 = some e) :
    getOutput S cam m w h = ((typeBlock S cam w h).1, some e) := by
  rcases htb0 : typeBlock S cam w h with ⟨ls, e0⟩
  rw [htb0] at htb
  simp only at htb
  subst htb
  unfold getOutput
  rw [htb0]

/-- Helper: when the type-specific block succeeds and `InsertLookat` raises,
`getOutput` propagates that error and the buffer holds the type-specific
lines. -/
theorem getOutput_lookat_err (S : LuxSettings) (cam : CameraData) (m : Bool)
    (w h : ℕ) (msg : String) (htb : (typeBlock S cam w h).2 = none)
    (hlk : InsertLookat m cam = .error msg) :
    getOutput S cam m w h = ((typeBlock S cam w h).1, some msg) := by
  rcases htb0 : typeBlock S cam w h with ⟨ls, e0⟩
  rw [htb0] at htb
  simp only at htb
  subst htb
  unfold getOutput
  rw [htb0, hlk]

/-- Helper: when both the type-specific block and `InsertLookat` succeed, the
buffer is their concatenation and no error is reported. -/
theorem getOutput_ok (S : LuxSettings) (cam : CameraData) (m : Bool)
    (w h : ℕ) (lk : List Line) (htb : (typeBlock S cam w h).2 = none)
    (hlk : InsertLookat m cam = .ok lk) :
    getOutput S cam m w h = ((typeBlock S cam w h).1 ++ lk, none) := by
  rcases htb0 : typeBlock S cam w h with ⟨ls, e0⟩
  rw [htb0] at htb
  simp only at htb
  subst htb
  unfold getOutput
  rw [htb0, hlk]

/-- Helper: keys of a successful look-at block lie in the claimed key set and
exclude the perspective-only keys. -/
theorem lookat_keys (m : Bool) (cam : CameraData) (lk : List Line)
    (hok : InsertLookat m cam = .ok lk) :
    ∀ l ∈ lk, ∀ k, l.key = some k →
      k ∈ claimedKeys ∧ k ≠ "scene.camera.fieldofview" ∧
        k ≠ "scene.camera.autofocus.enable" := by
  obtain ⟨e, a, u, hsh⟩ := insertLookat_ok_shape m cam lk hok
  rw [hsh]
  intro l hl k hk
  simp only [List.mem_cons, List.not_mem_nil, or_false] at hl
  rcases hl with rfl | rfl | rfl | rfl
  · simp only [Line.key, Option.some.injEq] at hk
    subst hk
    exact ⟨by decide, by decide, by decide⟩
  · simp only [Line.key, Option.some.injEq] at hk
    subst hk
    exact ⟨by decide, by decide, by decide⟩
  · simp only [Line.key, Option.some.injEq] at hk
    subst hk
    exact ⟨by decide, by decide, by decide⟩
  · cases hk

/-- Helper: the final buffer is the type-specific lines, possibly followed by
a successful look-at block. -/
theorem getOutput_buffer_split (S : LuxSettings) (cam : CameraData) (m : Bool)
    (w h : ℕ) :
    (getOutput S cam m w h).1 = (typeBlock S cam w h).1 ∨
    ∃ lk, InsertLookat m cam = .ok lk ∧
      (getOutput S cam m w h).1 = (typeBlock S cam w h).1 ++ lk := by
  rcases htb0 : (typeBlock S cam w h).2 with _ | e
  · cases hlk : InsertLookat m cam with
    | error msg =>
      left
      rw [getOutput_lookat_err S cam m w h msg htb0 hlk]
    | ok lk =>
      right
      exact ⟨lk, rfl, by rw [getOutput_ok S cam m w h lk htb0 hlk]⟩
  · left
    rw [getOutput_typeBlock_err S cam m w h e htb0]

/-- Claim C1: for every export call the common block emits, in order, the
screen-window bounds chosen by the branch on the output aspect ratio (the
width axis normalized to [-1,1] when ratio > 1, the height axis otherwise),
then shutter-open fixed at 0.0, then shutter-close equal to the
`camera_exposuretime` configuration value; with zero film offset and unit
scale, output 1920x1080 (ratio 16/9 > 1) yields bounds
(-1, 1, -1/ratio, 1/ratio) = (-1, 1, -9/16, 9/16), and output 1080x1920
(ratio 9/16 < 1) yields bounds (-ratio, ratio, -1, 1) =
(-9/16, 9/16, -1, 1). -/
theorem C1_insertCommon_spec :
    (∀ (S : LuxSettings) (cam : CameraData) (scale : ℝ) (w h : ℕ),
      (1 : ℝ) < (w : ℝ) / (h : ℝ) →
      InsertCommon S cam scale w h =
        [ Line.screenwindow ((2 * cam.filmTranslateH - 1) * scale)
            ((2 * cam.filmTranslateH + 1) * scale)
            ((2 * cam.filmTranslateV - 1 / ((w : ℝ) / (h : ℝ))) * scale)
            ((2 * cam.filmTranslateV + 1 / ((w : ℝ) / (h : ℝ))) * scale),
          Line.shutteropen 0, Line.shutterclose S.camera_exposuretime ]) ∧
    (∀ (S : LuxSettings) (cam : CameraData) (scale : ℝ) (w h : ℕ),
      ¬ (1 : ℝ) < (w : ℝ) / (h : ℝ) →
      InsertCommon S cam scale w h =
        [ Line.screenwindow ((2 * cam.filmTranslateH - (w : ℝ) / (h : ℝ)) * scale)
            ((2 * cam.filmTranslateH + (w : ℝ) / (h : ℝ)) * scale)
            ((2 * cam.filmTranslateV - 1) * scale)
            ((2 * cam.filmTranslateV + 1) * scale),
          Line.shutteropen 0, Line.shutterclose S.camera_exposuretime ]) ∧
    (∀ (S : LuxSettings) (cam : CameraData),
      cam.filmTranslateH = 0 → cam.filmTranslateV = 0 →
      InsertCommon S cam 1 1920 1080 =
        [ Line.screenwindow (-1) 1 (-(9/16)) (9/16),
          Line.shutteropen 0, Line.shutterclose S.camera_exposuretime ]) ∧
    (∀ (S : LuxSettings) (cam : CameraData),
      cam.filmTranslateH = 0 → cam.filmTranslateV = 0 →
      InsertCommon S cam 1 1080 1920 =
        [ Line.screenwindow (-(9/16)) (9/16) (-1) 1,
          Line.shutteropen 0, Line.shutterclose S.camera_exposuretime ]) := by
  refine ⟨fun S cam scale w h hr => ?_, fun S cam scale w h hr => ?_,
    fun S cam h1 h2 => ?_, fun S cam h1 h2 => ?_⟩
  · simp only [InsertCommon]
    rw [if_pos hr]
  · simp only [InsertCommon]
    rw [if_neg hr]
  · simp only [InsertCommon, h1, h2]
    norm_num
  · simp only [InsertCommon, h1, h2]
    norm_num

/-- Witness for C1 at a concrete camera with zero film offset. -/
theorem C1_insertCommon_spec_witness :
    InsertCommon perspSettings baseCam 1 1920 1080 =
      [ Line.screenwindow (-1) 1 (-(9/16)) (9/16),
        Line.shutteropen 0,
        Line.shutterclose perspSettings.camera_exposuretime ] :=
  C1_insertCommon_spec.2.2.1 perspSettings baseCam rfl rfl

/-- Claim C2: for every export call that completes without error, the emitted
lines appear in a fixed order: the type-specific camera block first, then
the look-at block, emitted last and exactly once (no look-at line occurs in
the type-specific block) and consisting of three 3-component lines (origin,
target, up) followed by a blank separator line. -/
theorem C2_getOutput_order (S : LuxSettings) (cam : CameraData) (m : Bool)
    (w h : ℕ) (hok : (getOutput S cam m w h).2 = none) :
    ∃ e a u : MPoint,
      (getOutput S cam m w h).1 =
        (typeBlock S cam w h).1 ++
          [ Line.lookatOrig e.x e.y e.z, Line.lookatTarget a.x a.y a.z,
            Line.up u.x u.y u.z, Line.blank ] ∧
      ∀ l ∈ (typeBlock S cam w h).1, l.isLookatLine = false := by
  rcases htb0 : (typeBlock S cam w h).2 with _ | e
  · cases hlk : InsertLookat m cam with
    | error msg =>
      rw [getOutput_lookat_err S cam m w h msg htb0 hlk] at hok
      cases hok
    | ok lk =>
      obtain ⟨e, a, u, hsh⟩ := insertLookat_ok_shape m cam lk hlk
      refine ⟨e, a, u, ?_, typeBlock_no_lookat S cam w h⟩
      rw [getOutput_ok S cam m w h lk htb0 hlk, ← hsh]
  · rw [getOutput_typeBlock_err S cam m w h e htb0] at hok
    cases hok

/-- Witness for C2 at a concrete perspective export call. -/
theorem C2_getOutput_order_witness :
    ∃ e a u : MPoint,
      (getOutput perspSettings baseCam true 1920 1080).1 =
        (typeBlock perspSettings baseCam 1920 1080).1 ++
          [ Line.lookatOrig e.x e.y e.z, Line.lookatTarget a.x a.y a.z,
            Line.up u.x u.y u.z, Line.blank ] ∧
      ∀ l ∈ (typeBlock perspSettings baseCam 1920 1080).1,
        l.isLookatLine = false :=
  C2_getOutput_order perspSettings baseCam true 1920 1080
    (by rw [getOutput_ok perspSettings baseCam true 1920 1080 _ rfl rfl])

/-- Claim C3: for every perspective camera the export emits type=perspective
first, an autofocus boolean translated from the integer `camera_autofocus`
configuration flag, and a field-of-view angle taken from the horizontal
field-of-view attribute when output width exceeds output height and from
the vertical one otherwise, converted from radians to degrees (multiplied
by 180 / pi). -/
theorem C3_insertPerspective_spec (S : LuxSettings) (cam : CameraData) (w h : ℕ) :
    (InsertPerspective S cam w h).head? = some (Line.cameraType "perspective") ∧
    Line.autofocusEnable (intToBoolString S.camera_autofocus) ∈
      InsertPerspective S cam w h ∧
    (h < w → Line.fieldofview (cam.horizontalFieldOfView * (180 / Real.pi)) ∈
      InsertPerspective S cam w h) ∧
    (¬ h < w → Line.fieldofview (cam.verticalFieldOfView * (180 / Real.pi)) ∈
      InsertPerspective S cam w h) := by
  refine ⟨rfl, by simp [InsertPerspective], fun hlt => ?_, fun hge => ?_⟩
  · simp [InsertPerspective, degrees, if_pos hlt]
  · simp [InsertPerspective, degrees, if_neg hge]

/-- Witness for C3 at output resolution 1920x1080 (wider than tall). -/
theorem C3_insertPerspective_spec_witness :
    (1080 : ℕ) < 1920 ∧
    Line.fieldofview (baseCam.horizontalFieldOfView * (180 / Real.pi)) ∈
      InsertPerspective perspSettings baseCam 1920 1080 :=
  ⟨by norm_num,
   (C3_insertPerspective_spec perspSettings baseCam 1920 1080).2.2.1 (by norm_num)⟩

/-- Claim C4: for every orthographic camera the export emits
type=orthographic, passes half the camera's ortho width to the common block
as the scale factor, and emits no field-of-view or lens/focus parameter
line; with ortho width 10 and zero film offset the screen window is scaled
by 5.0. -/
theorem C4_insertOrtho_spec (S : LuxSettings) (cam : CameraData) (w h : ℕ) :
    InsertOrtho S cam w h =
      Line.cameraType "orthographic" ::
        InsertCommon S cam (cam.orthoWidth / 2) w h ∧
    (∀ l ∈ InsertOrtho S cam w h, l.isLensLine = false) ∧
    (cam.orthoWidth = 10 → cam.filmTranslateH = 0 → cam.filmTranslateV = 0 →
      InsertOrtho S cam 1 1 =
        [ Line.cameraType "orthographic", Line.screenwindow (-5) 5 (-5) 5,
          Line.shutteropen 0, Line.shutterclose S.camera_exposuretime ]) := by
  refine ⟨rfl, ?_, fun hw h1 h2 => ?_⟩
  · intro l hl
    simp only [InsertOrtho, List.mem_cons] at hl
    rcases hl with rfl | hl
    · rfl
    · exact (insertCommon_lines S cam _ w h l hl).2.1
  · simp only [InsertOrtho, InsertCommon, hw, h1, h2]
    norm_num

/-- Witness for C4 at a concrete camera with ortho width 10. -/
theorem C4_insertOrtho_spec_witness :
    InsertOrtho perspSettings baseCam 1 1 =
      [ Line.cameraType "orthographic", Line.screenwindow (-5) 5 (-5) 5,
        Line.shutteropen 0,
        Line.shutterclose perspSettings.camera_exposuretime ] :=
  (C4_insertOrtho_spec perspSettings baseCam 1 1).2.2 rfl rfl rfl

/-- Claim C5: if any of the three world-space vector queries (eye point, up
direction, center-of-interest point) fails, the export produces an error
naming exactly the failed query, with no local recovery, and does so before
any look-at line is emitted: the message propagates unchanged through
`getOutput` and the buffer contains no look-at line. -/
theorem C5_insertLookat_failure (S : LuxSettings) (cam : CameraData) (m : Bool)
    (w h : ℕ) :
    (cam.eyePoint = none →
      InsertLookat m cam = .error "Failed to get camera.eyePoint\n") ∧
    (cam.eyePoint ≠ none → cam.upDirection = none →
      InsertLookat m cam = .error "Failed to get camera.upDirection\n") ∧
    (cam.eyePoint ≠ none → cam.upDirection ≠ none →
      cam.centerOfInterestPoint = none →
      InsertLookat m cam = .error "Failed to get camera.centerOfInterestPoint\n") ∧
    (∀ msg, InsertLookat m cam = .error msg → (typeBlock S cam w h).2 = none →
      getOutput S cam m w h = ((typeBlock S cam w h).1, some msg) ∧
      ∀ l ∈ (getOutput S cam m w h).1, l.isLookatLine = false) := by
  refine ⟨fun he => ?_, fun he hu => ?_, fun he hu hc => ?_,
    fun msg hlk htb => ?_⟩
  · unfold InsertLookat
    rw [he]
  · obtain ⟨e0, he0⟩ := Option.ne_none_iff_exists.mp he
    unfold InsertLookat
    rw [← he0, hu]
  · obtain ⟨e0, he0⟩ := Option.ne_none_iff_exists.mp he
    obtain ⟨u0, hu0⟩ := Option.ne_none_iff_exists.mp hu
    unfold InsertLookat
    rw [← he0, ← hu0, hc]
  · have hg := getOutput_lookat_err S cam m w h msg htb hlk
    refine ⟨hg, ?_⟩
    rw [hg]
    exact typeBlock_no_lookat S cam w h

/-- Witness for C5 at a camera whose eye-point query fails. -/
theorem C5_insertLookat_failure_witness :
    InsertLookat true failCam = .error "Failed to get camera.eyePoint\n" ∧
    (∀ l ∈ (getOutput perspSettings failCam true 1920 1080).1,
      l.isLookatLine = false) :=
  ⟨(C5_insertLookat_failure perspSettings failCam true 1920 1080).1 rfl,
   ((C5_insertLookat_failure perspSettings failCam true 1920 1080).2.2.2
      "Failed to get camera.eyePoint\n"
      ((C5_insertLookat_failure perspSettings failCam true 1920 1080).1 rfl)
      rfl).2⟩

/-- Claim C6 counterexample: a realistic-type export call emits the key
"float filmdistance", which is not in the key set the claim names, so the
claim as stated is false. -/
theorem C6_keys_counterexample :
    Line.filmdistance 2 ∈ (getOutput realSettings baseCam true 1920 1080).1 ∧
    Line.key (Line.filmdistance 2) = some "float filmdistance" ∧
    "float filmdistance" ∉ claimedKeys := by
  have hden : baseCam.centerOfInterest - baseCam.focalLength / DOF_CONST ≠ 0 := by
    norm_num [baseCam, DOF_CONST]
  cases hr : InsertRealistic realSettings baseCam 1920 1080 with
  | error e =>
    exfalso
    unfold InsertRealistic at hr
    rw [if_neg hden] at hr
    cases hr
  | ok ls =>
    have hls := insertRealistic_ok_shape realSettings baseCam 1920 1080 ls hr
    have htb : typeBlock realSettings baseCam 1920 1080 =
        (Line.comment "#Camera" :: ls, none) := by
      unfold typeBlock
      rw [if_neg (by simp [baseCam]), if_neg (by decide), if_neg (by decide), hr]
    have hgo := getOutput_ok realSettings baseCam true 1920 1080 _ (by rw [htb]) rfl
    refine ⟨?_, rfl, by decide⟩
    rw [hgo, htb]
    simp only [hls, List.cons_append, List.nil_append, List.mem_cons]
    right; right; right
    left
    norm_num [baseCam, DOF_CONST]

/-- Claim C6 (amended): every emitted key belongs to the claimed set extended
with the four legacy realistic keys (specfile, filmdistance,
aperture_diameter, filmdiag); for orthographic, perspective and environment
calls every emitted key belongs to the exact claimed set; and the
perspective-only keys fieldofview and autofocus.enable are never emitted by
orthographic or non-perspective calls. -/
theorem C6_getOutput_keys (S : LuxSettings) (cam : CameraData) (m : Bool)
    (w h : ℕ) :
    (∀ l ∈ (getOutput S cam m w h).1, ∀ k, l.key = some k →
      k ∈ claimedKeys ++ realisticKeys) ∧
    ((cam.isOrtho = true ∨ S.camera_persptype = "Perspective" ∨
        S.camera_persptype = "Environment") →
      ∀ l ∈ (getOutput S cam m w h).1, ∀ k, l.key = some k →
        k ∈ claimedKeys) ∧
    ((cam.isOrtho = true ∨ S.camera_persptype ≠ "Perspective") →
      ∀ l ∈ (getOutput S cam m w h).1, ∀ k, l.key = some k →
        k ≠ "scene.camera.fieldofview" ∧
        k ≠ "scene.camera.autofocus.enable") := by
  have hmem : ∀ l ∈ (getOutput S cam m w h).1,
      l ∈ (typeBlock S cam w h).1 ∨
      ∀ k, l.key = some k →
        k ∈ claimedKeys ∧ k ≠ "scene.camera.fieldofview" ∧
          k ≠ "scene.camera.autofocus.enable" := by
    intro l hl
    rcases getOutput_buffer_split S cam m w h with hb | ⟨lk, hok, hb⟩
    · rw [hb] at hl
      exact Or.inl hl
    · rw [hb, List.mem_append] at hl
      rcases hl with hl | hl
      · exact Or.inl hl
      · exact Or.inr (lookat_keys m cam lk hok l hl)
  refine ⟨fun l hl k hk => ?_, fun hc l hl k hk => ?_, fun hc l hl k hk => ?_⟩
  · rcases hmem l hl with ht | hlk
    · exact (typeBlock_key_cases S cam w h l ht k hk).1
    · exact List.mem_append_left _ (hlk k hk).1
  · rcases hmem l hl with ht | hlk
    · exact (typeBlock_key_cases S cam w h l ht k hk).2.1 hc
    · exact (hlk k hk).1
  · rcases hmem l hl with ht | hlk
    · exact (typeBlock_key_cases S cam w h l ht k hk).2.2 hc
    · exact (hlk k hk).2

/-- Witness for the amended C6 at a concrete perspective export call. -/
theorem C6_getOutput_keys_witness :
    "scene.camera.type" ∈ claimedKeys :=
  (C6_getOutput_keys perspSettings baseCam true 1920 1080).2.1
    (Or.inr (Or.inl rfl)) (Line.cameraType "perspective")
    (by rw [getOutput_ok perspSettings baseCam true 1920 1080 _ rfl rfl]
        simp [typeBlock, InsertPerspective, baseCam, perspSettings])
    "scene.camera.type" rfl

/-- Claim C7: for every realistic-type camera whose film-distance denominator
is nonzero, the export emits type=realistic, a reference to the external
calibration data file by path, and film-distance, aperture-diameter and
film-diagonal values derived from focal length, f-stop and focus distance
by the thin-lens relations the code uses, followed by the common block. -/
theorem C7_insertRealistic_spec (S : LuxSettings) (cam : CameraData) (w h : ℕ)
    (hden : cam.centerOfInterest - cam.focalLength / 1000 ≠ 0) :
    InsertRealistic S cam w h =
      .ok ([ Line.cameraType "realistic",
             Line.specfile "E:/dev/luxrender/lux/cameras/realistic/wide.22mm.dat",
             Line.filmdistance (cam.centerOfInterest * (cam.focalLength / 1000) /
               (cam.centerOfInterest - cam.focalLength / 1000)),
             Line.apertureDiameter ((cam.focalLength / 1000) / cam.fStop),
             Line.filmdiag (Real.sqrt
               (cam.horizontalFilmAperture * cam.verticalFilmAperture)) ]
            ++ InsertCommon S cam 1 w h) := by
  unfold InsertRealistic
  rw [if_neg (by simpa [DOF_CONST] using hden)]
  simp [DOF_CONST]

/-- Witness for C7 at a concrete realistic camera. -/
theorem C7_insertRealistic_spec_witness :
    baseCam.centerOfInterest - baseCam.focalLength / 1000 ≠ 0 ∧
    ∃ ls, InsertRealistic realSettings baseCam 800 600 = .ok ls :=
  ⟨by norm_num [baseCam],
   ⟨_, C7_insertRealistic_spec realSettings baseCam 800 600
        (by norm_num [baseCam])⟩⟩

/-- Claim C8: the axis-convention converter is a pure, stateless function of
the input point and the host up-axis setting; when the host-native up-axis
already matches the renderer's convention it returns every input point
unchanged. -/
theorem C8_pointCheckUpAxis_id (p : MPoint) : pointCheckUpAxis true p = p := rfl

/-- Claim C9: if look-at extraction fails partway through an export call, the
lines already appended by the type-specific block remain in the buffer
unchanged (no rollback or partial-output suppression), with the error
reported alongside them. -/
theorem C9_no_rollback (S : LuxSettings) (cam : CameraData) (m : Bool)
    (w h : ℕ) (msg : String) (hlk : InsertLookat m cam = .error msg)
    (htb : (typeBlock S cam w h).2 = none) :
    (getOutput S cam m w h).1 = (typeBlock S cam w h).1 ∧
    (getOutput S cam m w h).2 = some msg := by
  rw [getOutput_lookat_err S cam m w h msg htb hlk]
  exact ⟨rfl, rfl⟩

/-- Witness for C9 at a camera whose eye-point query fails. -/
theorem C9_no_rollback_witness :
    (getOutput perspSettings failCam true 1920 1080).1 =
      (typeBlock perspSettings failCam 1920 1080).1 ∧
    (getOutput perspSettings failCam true 1920 1080).2 =
      some "Failed to get camera.eyePoint\n" :=
  C9_no_rollback perspSettings failCam true 1920 1080 _ rfl rfl

/-- Claim C10: the realistic branch computes filmdistance as
dofdist * focal / (dofdist - focal) with no guard on the denominator: when
the center-of-interest distance equals focalLength / 1000 the export fails
with a division-by-zero error instead of producing output (only the block
comment reaches the buffer), and for every other input the division is
well-defined and the realistic block is produced. -/
theorem C10_filmdistance_divzero :
    getOutput realSettings divCam true 1920 1080 =
      ([Line.comment "#Camera"],
        some "ZeroDivisionError: float division by zero") ∧
    (∀ (S : LuxSettings) (cam : CameraData) (w h : ℕ),
      cam.centerOfInterest = cam.focalLength / 1000 →
      InsertRealistic S cam w h =
        .error "ZeroDivisionError: float division by zero") ∧
    (∀ (S : LuxSettings) (cam : CameraData) (w h : ℕ),
      cam.centerOfInterest ≠ cam.focalLength / 1000 →
      ∃ ls, InsertRealistic S cam w h = .ok ls) := by
  refine ⟨?_, fun S cam w h hz => ?_, fun S cam w h hz => ?_⟩
  · have hr : InsertRealistic realSettings divCam 1920 1080 =
        .error "ZeroDivisionError: float division by zero" := by
      unfold InsertRealistic
      rw [if_pos (by norm_num [divCam, baseCam, DOF_CONST])]
    have htb : typeBlock realSettings divCam 1920 1080 =
        ([Line.comment "#Camera"],
          some "ZeroDivisionError: float division by zero") := by
      unfold typeBlock
      rw [if_neg (by simp [divCam, baseCam]), if_neg (by decide),
        if_neg (by decide), hr]
    rw [getOutput_typeBlock_err realSettings divCam true 1920 1080 _
      (by rw [htb]), htb]
  · unfold InsertRealistic
    rw [if_pos (by rw [DOF_CONST]; exact sub_eq_zero_of_eq hz)]
  · unfold InsertRealistic
    rw [if_neg (by rw [DOF_CONST]; exact sub_ne_zero_of_ne hz)]
    exact ⟨_, rfl⟩

/-- Witness for C10: the failing camera satisfies the zero-denominator
equation, and a camera off the singular set exports successfully. -/
theorem C10_filmdistance_divzero_witness :
    (divCam.centerOfInterest = divCam.focalLength / 1000 ∧
      InsertRealistic perspSettings divCam 640 480 =
        .error "ZeroDivisionError: float division by zero") ∧
    (baseCam.centerOfInterest ≠ baseCam.focalLength / 1000 ∧
      ∃ ls, InsertRealistic perspSettings baseCam 640 480 = .ok ls) :=
  ⟨⟨by norm_num [divCam, baseCam],
    C10_filmdistance_divzero.2.1 perspSettings divCam 640 480
      (by norm_num [divCam, baseCam])⟩,
   ⟨by norm_num [baseCam],
    C10_filmdistance_divzero.2.2 perspSettings baseCam 640 480
      (by norm_num [baseCam])⟩⟩

end MayaToLux
